import Mathlib

/-!
Verification development for the TariffScraper repository.

The embedding models, from the source:
  - the HTML element tree handed to the extractor by the HTML-parsing
    collaborator (BeautifulSoup): nodes are text nodes or elements with a
    tag name and an ordered child list; tag search (find / find_all) walks
    descendants in document order and matches nested occurrences, as
    BeautifulSoup does; text extraction (get_text with strip=True) strips
    each descendant text segment, drops the segments that strip to empty,
    and joins the rest with the separator;
  - the Canadian extractor (src/tariff_scraper/scrapers/canadian.py and the
    identical class in scrape.py): parse_description and parse_data,
    including the per-row error handling (missing th caught and logged,
    fewer than two td cells skipped silently) and the accumulating
    self.data list (modelled as an explicit init argument);
  - the base scraper's scrape driver (base.py), with Python truthiness of
    the fetched text made explicit;
  - the dataset (scrape.py TariffData): add_data stamping and
    get_statistics, with pandas group sizes rendered as counts over the
    first-occurrence deduplication of the column and the group-size mean
    taken over the rationals;
  - the factory (TariffScraperFactory.create_scraper) with its registry
    dictionary, and the manager (TariffManager.scrape_country / save_data)
    with its catch-all per-target exception handling.

Timestamps are abstract (a Nat passed to each add_data call, read once per
batch, as datetime.now() is called once there); file writes are modelled as
the list of file names save_data would produce.
-/

/-- An HTML node as exposed by the HTML-parsing collaborator: a text segment
(NavigableString) or an element with a tag and ordered children. -/
inductive Node where
  | text : String → Node
  | elem : String → List Node → Node
deriving Repr

/-- Python str.strip on ASCII whitespace: drop whitespace from both ends. -/
def pyStrip (s : String) : String :=
  ⟨((s.data.dropWhile Char.isWhitespace).reverse.dropWhile Char.isWhitespace).reverse⟩

/-- Python str.lower on ASCII letters: lower-case each character. -/
def pyLower (s : String) : String :=
  ⟨s.data.map Char.toLower⟩

/-- Python sep.join(list): interleave the separator between the pieces. -/
def joinSep (sep : String) : List String → String
  | [] => ""
  | [x] => x
  | x :: y :: xs => x ++ sep ++ joinSep sep (y :: xs)

mutual

/-- The descendant text segments of a node in document order
(the NavigableStrings yielded by Tag.descendants). -/
def Node.segs : Node → List String
  | .text s => [s]
  | .elem _ cs => segsList cs

/-- Document-order text segments of a list of sibling nodes. -/
def segsList : List Node → List String
  | [] => []
  | n :: ns => Node.segs n ++ segsList ns

end

mutual

/-- All elements with the given tag in a subtree, the root included when it
matches, in document order (matches may be nested, as with find_all). -/
def Node.findAllIncl (tag : String) : Node → List Node
  | .text _ => []
  | .elem t cs =>
      (if t = tag then [Node.elem t cs] else []) ++ findAllInclList tag cs

/-- Document-order tag matches over a list of sibling subtrees. -/
def findAllInclList (tag : String) : List Node → List Node
  | [] => []
  | n :: ns => Node.findAllIncl tag n ++ findAllInclList tag ns

end

/-- Tag.find_all(name): matching descendants of the node, self excluded,
in document order. -/
def Node.findAll (tag : String) : Node → List Node
  | .text _ => []
  | .elem _ cs => findAllInclList tag cs

/-- Tag.find(name): the first matching descendant, if any. -/
def Node.find (tag : String) (n : Node) : Option Node :=
  (Node.findAll tag n).head?

/-- The node's direct children (Tag.contents); Python truthiness of a Tag is
the non-emptiness of this list. -/
def Node.children : Node → List Node
  | .text _ => []
  | .elem _ cs => cs

/-- The stripped, non-empty descendant text segments of a node: what
get_text(sep, strip=True) joins with the separator. -/
def textParts (n : Node) : List String :=
  ((Node.segs n).map pyStrip).filter (fun s => s ≠ "")

/-- Tag.get_text(sep, strip=True): strip each descendant text segment, drop
the empties, join the rest with sep. -/
def getText (sep : String) (n : Node) : String :=
  joinSep sep (textParts n)

/-- One extracted record, as appended by CanadianTariffScraper.parse_data. -/
structure Record where
  tariffItem : String
  hsHeading : String
  description : String
deriving Repr, DecidableEq

/-- CanadianTariffScraper.parse_description: if the cell has li descendants,
join their get_text(" ", strip=True) texts with "; "; else the cell's own
get_text(" ", strip=True). -/
def parse_description (cell : Node) : String :=
  match Node.findAll "li" cell with
  | [] => getText " " cell
  | lis => joinSep "; " (lis.map (getText " "))

/-- The body of the per-row loop of parse_data: the record the row yields
(none when skipped) and whether a diagnostic was logged (the AttributeError
branch: row.find('th') returned None). A row with a th but fewer than two
td cells is skipped without a log. -/
def processRow (row : Node) : Option Record × Bool :=
  match Node.find "th" row with
  | none => (none, true)
  | some th =>
      match Node.findAll "td" row with
      | c0 :: c1 :: _ =>
          (some { tariffItem := getText "" th
                , hsHeading := getText " " c0
                , description := parse_description c1 }, false)
      | _ => (none, false)

/-- The records appended by the row loop, in row order. -/
def rowsRecords (rows : List Node) : List Record :=
  rows.filterMap (fun r => (processRow r).1)

/-- Events on the error/observability channel during a parse. -/
inductive LogEvent where
  | noTable
  | noTbody
  | rowError
deriving Repr, DecidableEq

/-- The row-level diagnostics logged by the row loop, in row order. -/
def rowsLogs (rows : List Node) : List LogEvent :=
  rows.filterMap (fun r => if (processRow r).2 then some LogEvent.rowError else none)

/-- Result of CanadianTariffScraper.parse_data: the scraper's data list
after the call, the returned success flag, and the logged events. -/
structure ParseResult where
  data : List Record
  success : Bool
  logs : List LogEvent
deriving Repr, DecidableEq

/-- The rows parse_data iterates over: the tr descendants of the tbody of
the first table of the document, empty when the structural checks fail
(no table, a table with no contents — a falsy Tag — or no tbody). -/
def docRows (doc : Node) : List Node :=
  match Node.find "table" doc with
  | none => []
  | some table =>
      if (Node.children table).isEmpty then []
      else
        match Node.find "tbody" table with
        | none => []
        | some tbody => Node.findAll "tr" tbody

/-- CanadianTariffScraper.parse_data on a parsed document, with the
scraper's pre-existing self.data passed as init (empty on a freshly
constructed scraper). Mirrors the source: find the first table (a table
with no contents is falsy, hence treated as missing), find its tbody,
iterate the tr rows appending records, return bool(self.data). -/
def parse_data (init : List Record) (doc : Node) : ParseResult :=
  match Node.find "table" doc with
  | none => { data := init, success := false, logs := [LogEvent.noTable] }
  | some table =>
      if (Node.children table).isEmpty then
        { data := init, success := false, logs := [LogEvent.noTable] }
      else
        match Node.find "tbody" table with
        | none => { data := init, success := false, logs := [LogEvent.noTbody] }
        | some tbody =>
            let rows := Node.findAll "tr" tbody
            let newData := init ++ rowsRecords rows
            { data := newData, success := !newData.isEmpty, logs := rowsLogs rows }

/-- The jurisdiction enumeration (scrape.py Country). -/
inductive Country where
  | CANADA
  | MEXICO
  | CHINA
deriving Repr, DecidableEq

/-- Country.name of the Python enum member, used by add_data and the sheet
names. -/
def Country.name : Country → String
  | .CANADA => "CANADA"
  | .MEXICO => "MEXICO"
  | .CHINA => "CHINA"

/-- ScraperConfig (scrape.py): one scrape target. -/
structure ScraperConfig where
  url : String
  country : Country
  language : String
  encoding : String := "utf-8"
  headers : Option (List (String × String)) := none
deriving Repr

/-- One row of the TariffData DataFrame after add_data stamped it. -/
structure TariffRow where
  tariffItem : String
  hsHeading : String
  description : String
  country : String
  scrapeDate : Nat
deriving Repr, DecidableEq

/-- TariffData: the dataset holds an optional DataFrame (None until the
first add_data call). -/
structure TariffData where
  df : Option (List TariffRow)
deriving Repr, DecidableEq

/-- A freshly constructed, never-appended TariffData (its __init__ sets
self.df = None). -/
def TariffData.new : TariffData := { df := none }

/-- The stamping add_data applies to one record of a batch: the batch's
country name and the single wall-clock reading of that call. -/
def stampRow (c : Country) (now : Nat) (r : Record) : TariffRow :=
  { tariffItem := r.tariffItem
  , hsHeading := r.hsHeading
  , description := r.description
  , country := c.name
  , scrapeDate := now }

/-- TariffData.add_data: build the new frame from the batch, set its
Country column to country.name and its Scrape_Date column to the one
datetime.now() reading, then either adopt it (df was None) or concatenate
it after the existing rows. -/
def add_data (td : TariffData) (batch : List Record) (c : Country) (now : Nat) :
    TariffData :=
  let newRows := batch.map (stampRow c now)
  match td.df with
  | none => { df := some newRows }
  | some rows => { df := some (rows ++ newRows) }

/-- First-occurrence deduplication: the distinct values of a column in
first-appearance order, as pandas unique() returns them. -/
def firstDedup {α : Type} [DecidableEq α] : List α → List α
  | [] => []
  | a :: as => a :: (firstDedup as).filter (fun b => b ≠ a)

/-- The rows of one jurisdiction (df[df['Country'] == country]). -/
def countryRows (rows : List TariffRow) (c : String) : List TariffRow :=
  rows.filter (fun r => r.country = c)

/-- The per-jurisdiction block of get_statistics. The group sizes of
groupby('HS Heading').size() are the counts of each distinct heading, and
.mean() divides their sum by their number, over the rationals. -/
structure CountryStats where
  totalEntries : Nat
  uniqueHsHeadings : Nat
  avgDescriptionsPerHeading : Rat
deriving Repr, DecidableEq

/-- The country-specific statistics computed inside get_statistics's loop
for one country value. -/
def countryStatsFor (rows : List TariffRow) (c : String) : CountryStats :=
  let cr := countryRows rows c
  let hs := cr.map (fun r => r.hsHeading)
  let sizes := (firstDedup hs).map (fun h => hs.count h)
  { totalEntries := cr.length
  , uniqueHsHeadings := (firstDedup hs).length
  , avgDescriptionsPerHeading :=
      ((sizes.map (Nat.cast : Nat → Rat)).sum) / (sizes.length : Rat) }

/-- The dictionary get_statistics returns: the entries_by_country dict is a
finite map from country name to count, and the country-specific blocks are
keyed country.lower() ++ "_statistics" in first-appearance order of the
Country column. -/
structure Stats where
  totalEntries : Nat
  entriesByCountry : String → Nat
  uniqueHsHeadings : Nat
  uniqueTariffItems : Nat
  countryStats : List (String × CountryStats)

/-- The statistics dictionary built from a non-None DataFrame. -/
def computeStats (rows : List TariffRow) : Stats :=
  { totalEntries := rows.length
  , entriesByCountry := fun c => (countryRows rows c).length
  , uniqueHsHeadings := (firstDedup (rows.map (fun r => r.hsHeading))).length
  , uniqueTariffItems := (firstDedup (rows.map (fun r => r.tariffItem))).length
  , countryStats :=
      (firstDedup (rows.map (fun r => r.country))).map
        (fun c => (pyLower c ++ "_statistics", countryStatsFor rows c)) }

/-- TariffData.get_statistics: raises ValueError("No data available") when
df is None, else computes the dictionary. -/
def get_statistics (td : TariffData) : Except String Stats :=
  match td.df with
  | none => Except.error "No data available"
  | some rows => Except.ok (computeStats rows)

/-- TariffManager.save_data: returns whether saving succeeded together with
the output files produced. With df None the ValueError("No data available
to save") is raised before any write, caught by the except block, logged,
and False is returned with no files; otherwise both files are written. -/
def save_data (td : TariffData) : Bool × List String :=
  match td.df with
  | none => (false, [])
  | some _ => (true, ["combined_tariff_data.json", "combined_tariff_data.xlsx"])

/-- The scraper classes the factory's dictionary maps countries to. -/
inductive ScraperKind where
  | canadian
  | mexican
  | chinese
deriving Repr, DecidableEq

/-- The factory's scrapers dictionary in TariffScraperFactory.create_scraper:
it registers all three countries. -/
def defaultRegistry : Country → Option ScraperKind
  | .CANADA => some .canadian
  | .MEXICO => some .mexican
  | .CHINA => some .chinese

/-- TariffScraperFactory.create_scraper over an explicit registry mapping
(the source's dict together with its defensive scrapers.get lookup): when
the lookup misses, a ValueError is raised. -/
def create_scraper (registry : Country → Option ScraperKind)
    (cfg : ScraperConfig) : Except String ScraperKind :=
  match registry cfg.country with
  | none => Except.error ("No scraper available for " ++ cfg.country.name)
  | some k => Except.ok k

/-- Outcome of BaseTariffScraper.scrape: the returned record list, and
whether parse_data was invoked during the call. -/
structure ScrapeOutcome where
  records : List Record
  parseInvoked : Bool
deriving Repr, DecidableEq

/-- BaseTariffScraper.scrape on a fresh scraper, over the fetch result and
the scraper's parse_data (records plus success flag). The guard
(if html_content and self.parse_data(html_content)) short-circuits: the
parse runs only when the fetched text is truthy, i.e. present and
non-empty. -/
def scrape (fetchResult : Option String)
    (parse : String → List Record × Bool) : ScrapeOutcome :=
  match fetchResult with
  | none => { records := [], parseInvoked := false }
  | some t =>
      if t = "" then { records := [], parseInvoked := false }
      else
        let r := parse t
        { records := if r.2 then r.1 else [], parseInvoked := true }

/-- The parse_data of each scraper class, over the HTML-parsing collaborator
turning raw text into an element tree. The Mexican and Chinese stubs log
and return False without touching self.data. -/
def parseFor (parseHtml : String → Node) : ScraperKind → String → List Record × Bool
  | .canadian, t => ((parse_data [] (parseHtml t)).data, (parse_data [] (parseHtml t)).success)
  | .mexican, _ => ([], false)
  | .chinese, _ => ([], false)

/-- The try block of TariffManager.scrape_country: create the scraper (which
may raise the configuration ValueError), run scrape, and append a non-empty
result to the dataset. The Except models exception propagation out of the
block. -/
def scrape_country_body (registry : Country → Option ScraperKind)
    (parseHtml : String → Node) (fetchResult : ScraperConfig → Option String)
    (st : TariffData) (cfg : ScraperConfig) (now : Nat) :
    Except String (TariffData × Bool) :=
  match create_scraper registry cfg with
  | .error e => Except.error e
  | .ok kind =>
      let out := scrape (fetchResult cfg) (parseFor parseHtml kind)
      if out.records.isEmpty then Except.ok (st, false)
      else Except.ok (add_data st out.records cfg.country now, true)

/-- TariffManager.scrape_country: the try block wrapped in
except Exception, which logs the error and returns False, leaving the
dataset untouched — so no exception, the configuration ValueError included,
escapes to the caller. -/
def scrape_country (registry : Country → Option ScraperKind)
    (parseHtml : String → Node) (fetchResult : ScraperConfig → Option String)
    (st : TariffData) (cfg : ScraperConfig) (now : Nat) : TariffData × Bool :=
  match scrape_country_body registry parseHtml fetchResult st cfg now with
  | .ok r => r
  | .error _ => (st, false)

/-- The per-target loop of main: fold scrape_country over the configured
targets, threading the dataset; each call reads its own wall clock. -/
def runTargets (registry : Country → Option ScraperKind)
    (parseHtml : String → Node) (fetchResult : ScraperConfig → Option String)
    (times : ScraperConfig → Nat) : TariffData → List ScraperConfig → TariffData
  | st, [] => st
  | st, cfg :: rest =>
      runTargets registry parseHtml fetchResult times
        (scrape_country registry parseHtml fetchResult st cfg (times cfg)).1 rest

/-- A node has textual content: some descendant text segment survives
stripping. Exactly when this holds, get_text(sep, strip=True) is
non-empty. -/
def hasText (n : Node) : Bool :=
  (Node.segs n).any (fun s => pyStrip s ≠ "")

/-- One concrete cell with a single text node whose inner whitespace runs
are wider than one space. -/
def cellPlainText : Node := Node.elem "td" [Node.text "  Some   text  "]

/-- One concrete cell holding a bulleted list with two items. -/
def cellListItems : Node :=
  Node.elem "td" [Node.elem "ul" [Node.elem "li" [Node.text "A"],
                                  Node.elem "li" [Node.text "B"]]]

/-- The description rule as amended: with list items present, each item
contributes its stripped text segments joined by single spaces and the
items are joined with "; " in document order; without list items, the
result is the cell's stripped text segments joined by single spaces
(whitespace runs inside one text segment are preserved). -/
def descriptionRule (cell : Node) : String :=
  let liTexts := (Node.findAll "li" cell).map (fun li => joinSep " " (textParts li))
  if liTexts.isEmpty then joinSep " " (textParts cell)
  else joinSep "; " liTexts

/-- The data list parse_data leaves behind is the initial list followed by
the records of the body rows (none when the structural checks fail). -/
theorem parse_data_data_eq (init : List Record) (doc : Node) :
    (parse_data init doc).data = init ++ rowsRecords (docRows doc) := by
  unfold parse_data docRows
  cases h : Node.find "table" doc with
  | none => simp [rowsRecords]
  | some table =>
      cases hc : (Node.children table).isEmpty with
      | true => simp [hc, rowsRecords]
      | false =>
          cases h2 : Node.find "tbody" table with
          | none => simp [hc, h2, rowsRecords]
          | some tbody => simp [hc, h2]

/-- On a fresh scraper (empty initial data) the returned success flag is
exactly the non-emptiness test bool(self.data) of the final data list, on
the structural-failure branches included. -/
theorem parse_data_success_empty_init (doc : Node) :
    (parse_data [] doc).success = !((parse_data [] doc).data.isEmpty) := by
  unfold parse_data
  cases h : Node.find "table" doc with
  | none => simp
  | some table =>
      cases hc : (Node.children table).isEmpty with
      | true => simp [hc]
      | false =>
          cases h2 : Node.find "tbody" table with
          | none => simp [hc, h2]
          | some tbody => simp [hc, h2]

/-- Claim C1 counterexample: a cell with no list items and the single text
node "  Some   text  " yields "Some   text" — the leading and trailing
whitespace is stripped but the internal whitespace run is preserved, so the
claimed result "Some text" is wrong for this cell. -/
theorem C1_counterexample :
    Node.findAll "li" cellPlainText = [] ∧
    parse_description cellPlainText = "Some   text" ∧
    parse_description cellPlainText ≠ "Some text" :=
  ⟨rfl, by decide, by decide⟩

/-- Claim C1 as amended: for every cell, parse_description computes the
description rule in which, with list items present, the trimmed text
segments of each list item are joined by single spaces and the items joined
with "; " in document order, and with no list items the cell's trimmed text
segments are joined by single spaces — whitespace runs inside a single text
segment are preserved, not collapsed. The list-item example of the claim
stands: a cell with items A and B yields "A; B". -/
theorem C1_description_rule :
    (∀ cell : Node, parse_description cell = descriptionRule cell) ∧
    parse_description cellListItems = "A; B" := by
  constructor
  · intro cell
    unfold parse_description descriptionRule getText
    cases h : Node.findAll "li" cell with
    | nil => simp
    | cons a l => simp
  · decide

/-- Claim C4: on a fresh Canadian extractor, parse_data reports success
exactly when the parse produced at least one record (the final data list,
which on a fresh scraper is exactly this parse's output, is non-empty). -/
theorem C4_success_iff_records (doc : Node) :
    (parse_data [] doc).success = true ↔ (parse_data [] doc).data ≠ [] := by
  rw [parse_data_success_empty_init]
  cases h : (parse_data [] doc).data with
  | nil => simp [h]
  | cons a l => simp [h]

/-- Claim C5: extraction is pure — the records a parse appends are a
function of the document alone, independent of the scraper's prior state,
so two extractions of the same raw text (each on a freshly constructed
scraper, as the factory produces them) yield identical record sequences. -/
theorem C5_extraction_pure (init : List Record) (doc : Node) :
    (parse_data init doc).data = init ++ (parse_data [] doc).data := by
  rw [parse_data_data_eq, parse_data_data_eq, List.nil_append]

/-- Claim C9: add_data stamps every record of the batch with the same
country name and the single wall-clock reading of that call, and appends
the stamped batch after the existing rows, which are unchanged. -/
theorem C9_batch_stamping (td : TariffData) (batch : List Record)
    (c : Country) (now : Nat) :
    (add_data td batch c now).df =
      some ((td.df.getD []) ++ batch.map (stampRow c now)) ∧
    ∀ r ∈ batch.map (stampRow c now), r.country = c.name ∧ r.scrapeDate = now := by
  constructor
  · unfold add_data
    cases td.df with
    | none => simp
    | some rows => simp
  · intro r hr
    rcases List.mem_map.mp hr with ⟨rec, _, hrec⟩
    subst hrec
    exact ⟨rfl, rfl⟩

/-- Claim C10: a fetch that yields the empty string is treated like a fetch
failure — scrape returns the empty record list without invoking parse_data,
exactly as when fetch_page returned None. -/
theorem C10_empty_text (parse : String → List Record × Bool) :
    scrape (some "") parse = { records := [], parseInvoked := false } ∧
    scrape (some "") parse = scrape none parse :=
  ⟨rfl, rfl⟩

/-- A well-formed data row: header cell and two data cells. -/
def rowGood : Node :=
  Node.elem "tr" [Node.elem "th" [Node.text "9897.00.10"],
                  Node.elem "td" [Node.text "01.01"],
                  Node.elem "td" [Node.text "Live horses"]]

/-- A malformed row: header cell but a single data cell. -/
def rowOneTd : Node :=
  Node.elem "tr" [Node.elem "th" [Node.text "Heading"],
                  Node.elem "td" [Node.text "only one cell"]]

/-- Claim C2: an anomalous row — th missing, or fewer than two td cells —
contributes no record; a diagnostic is logged exactly in the th-missing
case (the caught AttributeError), silently otherwise; and the records and
row diagnostics of all subsequent rows are unaffected. -/
theorem C2_row_anomaly (row : Node) (rest : List Node)
    (h : Node.find "th" row = none ∨ (Node.findAll "td" row).length < 2) :
    (processRow row).1 = none ∧
    ((processRow row).2 = true ↔ Node.find "th" row = none) ∧
    rowsRecords (row :: rest) = rowsRecords rest ∧
    rowsLogs (row :: rest) =
      (if (processRow row).2 then [LogEvent.rowError] else []) ++ rowsLogs rest := by
  have hrow : (processRow row).1 = none ∧
      ((processRow row).2 = true ↔ Node.find "th" row = none) := by
    unfold processRow
    cases hth : Node.find "th" row with
    | none => simp
    | some th =>
        rcases h with h | h
        · exact absurd hth (by simp [h])
        · cases hcells : Node.findAll "td" row with
          | nil => simp
          | cons c0 cs =>
              cases cs with
              | nil => simp
              | cons c1 cs2 => simp [hcells] at h; omega
  refine ⟨hrow.1, hrow.2, ?_, ?_⟩
  · unfold rowsRecords
    rw [List.filterMap_cons]
    rw [hrow.1]
  · unfold rowsLogs
    rw [List.filterMap_cons]
    cases hl : (processRow row).2 with
    | true => simp
    | false => simp

/-- Witness for C2 at a concrete anomalous row (one td cell) followed by a
well-formed row: the anomalous row is skipped silently and the next row is
still processed. -/
theorem C2_row_anomaly_witness :
    (processRow rowOneTd).1 = none ∧
    ((processRow rowOneTd).2 = true ↔ Node.find "th" rowOneTd = none) ∧
    rowsRecords (rowOneTd :: [rowGood]) = rowsRecords [rowGood] ∧
    rowsLogs (rowOneTd :: [rowGood]) =
      (if (processRow rowOneTd).2 then [LogEvent.rowError] else []) ++ rowsLogs [rowGood] :=
  C2_row_anomaly rowOneTd [rowGood] (Or.inr (by decide))

/-- Python str.join of a non-empty list whose first piece is non-empty is
non-empty. -/
theorem joinSep_ne_empty (sep p : String) (rest : List String) (hp : p ≠ "") :
    joinSep sep (p :: rest) ≠ "" := by
  cases rest with
  | nil => simpa [joinSep] using hp
  | cons y ys =>
      intro hcontra
      have hlen : (joinSep sep (p :: y :: ys)).length = 0 := by rw [hcontra]; rfl
      have hsum : p.length + sep.length + (joinSep sep (y :: ys)).length = 0 := by
        simpa [joinSep, String.length_append] using hlen
      have hp0 : p.length = 0 := by omega
      apply hp
      obtain ⟨data⟩ := p
      cases data with
      | nil => rfl
      | cons c cs => simp [String.length] at hp0

/-- A node with textual content has non-empty get_text, whatever the
separator. -/
theorem getText_ne_empty (sep : String) (n : Node) (h : hasText n = true) :
    getText sep n ≠ "" := by
  have hex : ∃ s ∈ Node.segs n, pyStrip s ≠ "" := by
    rcases List.any_eq_true.mp h with ⟨s, hs, hdec⟩
    exact ⟨s, hs, of_decide_eq_true hdec⟩
  rcases hex with ⟨s, hs, hne⟩
  have hmem : pyStrip s ∈ textParts n := by
    unfold textParts
    exact List.mem_filter.mpr ⟨List.mem_map_of_mem _ hs, decide_eq_true hne⟩
  have htp : textParts n ≠ [] := List.ne_nil_of_mem hmem
  unfold getText
  cases htp' : textParts n with
  | nil => exact absurd htp' htp
  | cons p rest =>
      have hpmem : p ∈ textParts n := by rw [htp']; exact List.mem_cons_self _ _
      have hpne : p ≠ "" := by
        unfold textParts at hpmem
        exact of_decide_eq_true (List.mem_filter.mp hpmem).2
      exact joinSep_ne_empty sep p rest hpne

/-- A data row of a valid Canadian-format table: when the row has a header
cell and at least two data cells, its header cell and first data cell both
contain non-whitespace text. Rows skipped by the extractor are
unconstrained. -/
def rowContentOK (row : Node) : Bool :=
  match Node.find "th" row with
  | none => true
  | some th =>
      match Node.findAll "td" row with
      | c0 :: _ :: _ => hasText th && hasText c0
      | _ => true

/-- Claim C3: over a valid Canadian-format table (every data row's header
cell and first data cell hold non-whitespace text), each record the parse
stores has non-empty tariff item and HS heading, and every stored record
stems from a row with a header cell and at least two data cells — no
record from a row with fewer than two data cells is ever stored. -/
theorem C3_record_invariants (doc : Node)
    (hval : ∀ r ∈ docRows doc, rowContentOK r = true) :
    ∀ rec ∈ (parse_data [] doc).data,
      rec.tariffItem ≠ "" ∧ rec.hsHeading ≠ "" ∧
      ∃ r ∈ docRows doc,
        2 ≤ (Node.findAll "td" r).length ∧ (processRow r).1 = some rec := by
  intro rec hrec
  rw [parse_data_data_eq, List.nil_append] at hrec
  unfold rowsRecords at hrec
  rcases List.mem_filterMap.mp hrec with ⟨r, hr, hpr⟩
  have hpr0 := hpr
  have hok := hval r hr
  unfold processRow at hpr
  cases hth : Node.find "th" r with
  | none => rw [hth] at hpr; simp at hpr
  | some th =>
      rw [hth] at hpr
      cases hcells : Node.findAll "td" r with
      | nil => rw [hcells] at hpr; simp at hpr
      | cons c0 cs =>
          cases cs with
          | nil => rw [hcells] at hpr; simp at hpr
          | cons c1 cs2 =>
              rw [hcells] at hpr
              simp only [Option.some.injEq] at hpr
              cases hpr
              simp only [rowContentOK, hth, hcells, Bool.and_eq_true] at hok
              refine ⟨getText_ne_empty "" th hok.1, getText_ne_empty " " c0 hok.2,
                r, hr, ?_, hpr0⟩
              rw [hcells]
              simp

/-- A document with one table, one tbody and one well-formed row. -/
def docGood : Node :=
  Node.elem "[document]"
    [Node.elem "html"
      [Node.elem "body"
        [Node.elem "table" [Node.elem "tbody" [rowGood]]]]]

/-- The record the well-formed row yields. -/
def recGood : Record :=
  { tariffItem := "9897.00.10", hsHeading := "01.01", description := "Live horses" }

/-- Witness for C3 at the concrete valid one-row document. -/
theorem C3_record_invariants_witness :
    recGood.tariffItem ≠ "" ∧ recGood.hsHeading ≠ "" ∧
    ∃ r ∈ docRows docGood,
      2 ≤ (Node.findAll "td" r).length ∧ (processRow r).1 = some recGood :=
  C3_record_invariants docGood (by decide) recGood (by decide)

/-- Membership in the first-occurrence deduplication is membership in the
list. -/
theorem mem_firstDedup {α : Type} [DecidableEq α] {a : α} :
    ∀ {l : List α}, a ∈ firstDedup l ↔ a ∈ l := by
  intro l
  induction l with
  | nil => simp [firstDedup]
  | cons b bs ih =>
      simp only [firstDedup, List.mem_cons, List.mem_filter, ih, decide_eq_true_eq]
      by_cases hab : a = b
      · simp [hab]
      · simp [hab]

/-- The first-occurrence deduplication has no duplicates. -/
theorem nodup_firstDedup {α : Type} [DecidableEq α] :
    ∀ l : List α, (firstDedup l).Nodup := by
  intro l
  induction l with
  | nil => simp [firstDedup]
  | cons b bs ih =>
      simp only [firstDedup]
      refine List.nodup_cons.mpr ⟨?_, List.Nodup.filter _ ih⟩
      intro hmem
      have := (List.mem_filter.mp hmem).2
      simp at this

/-- The first-occurrence deduplication is a permutation of Mathlib's
dedup: both are duplicate-free with the same members. -/
theorem firstDedup_perm_dedup {α : Type} [DecidableEq α] (l : List α) :
    List.Perm (firstDedup l) l.dedup :=
  (List.perm_ext_iff_of_nodup (nodup_firstDedup l) (List.nodup_dedup l)).mpr
    (fun _ => by rw [mem_firstDedup, List.mem_dedup])

/-- The group sizes of a column partition its entries: the counts of the
distinct values sum to the column length. -/
theorem sum_count_firstDedup {α : Type} [DecidableEq α] (l : List α) :
    ((firstDedup l).map (fun a => l.count a)).sum = l.length := by
  have hperm := (firstDedup_perm_dedup l).map (fun a => l.count a)
  rw [hperm.sum_eq]
  exact List.sum_map_count_dedup_eq_length l

/-- The mean of the per-heading group sizes is the column length divided by
the number of distinct headings. -/
theorem avg_eq_div (hs : List String) :
    ((((firstDedup hs).map (fun h => hs.count h)).map (Nat.cast : Nat → Rat)).sum) /
      ((((firstDedup hs).map (fun h => hs.count h)).length : Nat) : Rat) =
    ((hs.length : Nat) : Rat) / (((firstDedup hs).length : Nat) : Rat) := by
  have h1 : (((firstDedup hs).map (fun h => hs.count h)).map (Nat.cast : Nat → Rat)).sum
      = ((hs.length : Nat) : Rat) := by
    rw [← sum_count_firstDedup hs]
    have h2 : (((firstDedup hs).map (fun h => hs.count h)).sum : Rat)
        = (((firstDedup hs).map (fun h => hs.count h)).map (Nat.cast : Nat → Rat)).sum :=
      Nat.cast_list_sum _
    exact h2.symm
  rw [h1, List.length_map]

/-- The example dataset of the claim: three Canadian records, two on
heading 01 and one on heading 02. -/
def exampleRows : List TariffRow :=
  [ { tariffItem := "1", hsHeading := "01", description := "d1",
      country := "CANADA", scrapeDate := 0 }
  , { tariffItem := "2", hsHeading := "01", description := "d2",
      country := "CANADA", scrapeDate := 0 }
  , { tariffItem := "3", hsHeading := "02", description := "d3",
      country := "CANADA", scrapeDate := 0 } ]

/-- The dataset object holding the example rows. -/
def exampleTD : TariffData := { df := some exampleRows }

/-- Claim C6: every per-jurisdiction avg_descriptions_per_heading equals
the jurisdiction's record count divided by its count of distinct HS
headings, and on the three-record example dataset get_statistics yields
unique_hs_headings = 2, total_entries = 3 and
canada_statistics.avg_descriptions_per_heading = 3/2. -/
theorem C6_statistics :
    (∀ (rows : List TariffRow) (c : String),
      (countryStatsFor rows c).avgDescriptionsPerHeading =
        ((countryStatsFor rows c).totalEntries : Rat) /
          ((countryStatsFor rows c).uniqueHsHeadings : Rat)) ∧
    get_statistics exampleTD = Except.ok (computeStats exampleRows) ∧
    (computeStats exampleRows).uniqueHsHeadings = 2 ∧
    (computeStats exampleRows).totalEntries = 3 ∧
    (computeStats exampleRows).countryStats =
      [("canada_statistics", countryStatsFor exampleRows "CANADA")] ∧
    (countryStatsFor exampleRows "CANADA").avgDescriptionsPerHeading = (3 : Rat) / 2 := by
  have hgen : ∀ (rows : List TariffRow) (c : String),
      (countryStatsFor rows c).avgDescriptionsPerHeading =
        ((countryStatsFor rows c).totalEntries : Rat) /
          ((countryStatsFor rows c).uniqueHsHeadings : Rat) := by
    intro rows c
    simp only [countryStatsFor]
    rw [avg_eq_div, List.length_map]
  refine ⟨hgen, rfl, by decide, by decide, by rfl, ?_⟩
  rw [hgen exampleRows "CANADA"]
  rw [show (countryStatsFor exampleRows "CANADA").totalEntries = 3 from by decide,
      show (countryStatsFor exampleRows "CANADA").uniqueHsHeadings = 2 from by decide]
  norm_num

/-- A target fails: either the factory cannot produce a scraper for it, or
its scrape yields no records (fetch failure, empty page, stub parser, or a
parse with no output). Independent of the dataset state. -/
def targetFails (registry : Country → Option ScraperKind)
    (parseHtml : String → Node) (fetchResult : ScraperConfig → Option String)
    (cfg : ScraperConfig) : Bool :=
  match create_scraper registry cfg with
  | .error _ => true
  | .ok kind => (scrape (fetchResult cfg) (parseFor parseHtml kind)).records.isEmpty

/-- A failing target leaves the dataset untouched and reports False. -/
theorem scrape_country_of_fail (registry : Country → Option ScraperKind)
    (parseHtml : String → Node) (fetchResult : ScraperConfig → Option String)
    (st : TariffData) (cfg : ScraperConfig) (now : Nat)
    (h : targetFails registry parseHtml fetchResult cfg = true) :
    scrape_country registry parseHtml fetchResult st cfg now = (st, false) := by
  unfold targetFails at h
  unfold scrape_country scrape_country_body
  cases hc : create_scraper registry cfg with
  | error e => simp
  | ok kind =>
      rw [hc] at h
      simp at h
      simp [h]

/-- Folding the per-target loop over failing targets only leaves the
dataset exactly as it started. -/
theorem runTargets_of_fail (registry : Country → Option ScraperKind)
    (parseHtml : String → Node) (fetchResult : ScraperConfig → Option String)
    (times : ScraperConfig → Nat) :
    ∀ (cfgs : List ScraperConfig) (st : TariffData),
      (∀ cfg ∈ cfgs, targetFails registry parseHtml fetchResult cfg = true) →
      runTargets registry parseHtml fetchResult times st cfgs = st := by
  intro cfgs
  induction cfgs with
  | nil => intro st _; rfl
  | cons cfg rest ih =>
      intro st h
      unfold runTargets
      rw [scrape_country_of_fail registry parseHtml fetchResult st cfg (times cfg)
            (h cfg (List.mem_cons_self _ _))]
      exact ih st (fun c hc => h c (List.mem_cons_of_mem _ hc))

/-- Claim C7: statistics and save on a freshly constructed, never-appended
dataset fail with the empty-dataset error (an error value, no crash and no
files); and when every configured target fails, the run leaves the dataset
empty, so save_data produces no output files and reports failure. -/
theorem C7_empty_dataset_guard (registry : Country → Option ScraperKind)
    (parseHtml : String → Node) (fetchResult : ScraperConfig → Option String)
    (times : ScraperConfig → Nat) (cfgs : List ScraperConfig)
    (hfail : ∀ cfg ∈ cfgs, targetFails registry parseHtml fetchResult cfg = true) :
    get_statistics TariffData.new = Except.error "No data available" ∧
    save_data TariffData.new = (false, []) ∧
    runTargets registry parseHtml fetchResult times TariffData.new cfgs = TariffData.new ∧
    save_data (runTargets registry parseHtml fetchResult times TariffData.new cfgs) =
      (false, []) := by
  have hrun := runTargets_of_fail registry parseHtml fetchResult times cfgs TariffData.new hfail
  exact ⟨rfl, rfl, hrun, by rw [hrun]; exact rfl⟩

/-- A trivial HTML-parsing collaborator for concrete runs. -/
def exParseHtml : String → Node := fun _ => Node.text ""

/-- A fetch that always fails (network error on every target). -/
def exFetchNone : ScraperConfig → Option String := fun _ => none

/-- A constant wall clock for concrete runs. -/
def exTimes : ScraperConfig → Nat := fun _ => 0

/-- A concrete Mexican target. -/
def cfgMexicoEx : ScraperConfig :=
  { url := "https://example.mx", country := Country.MEXICO, language := "es" }

/-- Witness for C7: one Mexican target whose fetch fails; the run produces
no data, statistics and save report the empty-dataset error, no files. -/
theorem C7_empty_dataset_guard_witness :
    get_statistics TariffData.new = Except.error "No data available" ∧
    save_data TariffData.new = (false, []) ∧
    runTargets defaultRegistry exParseHtml exFetchNone exTimes TariffData.new [cfgMexicoEx] =
      TariffData.new ∧
    save_data (runTargets defaultRegistry exParseHtml exFetchNone exTimes TariffData.new
      [cfgMexicoEx]) = (false, []) :=
  C7_empty_dataset_guard defaultRegistry exParseHtml exFetchNone exTimes [cfgMexicoEx]
    (by decide)

/-- A registry with no extractor registered for China: the scrapers dict
with the Chinese entry absent, to exercise the defensive lookup. -/
def registryNoChina : Country → Option ScraperKind
  | .CHINA => none
  | .CANADA => some .canadian
  | .MEXICO => some .mexican

/-- A concrete Chinese target. -/
def cfgChinaEx : ScraperConfig :=
  { url := "https://example.cn", country := Country.CHINA, language := "zh" }

/-- Claim C8 counterexample: with no extractor registered for the target's
jurisdiction, the factory does raise the configuration ValueError inside
scrape_country's try block, but the Manager's scrape_country catches it and
returns the plain per-target-failure result (dataset unchanged, False) —
the identical observable outcome an ordinary failing target produces — so
the error is logged and skipped, not surfaced to the Manager's caller. -/
theorem C8_counterexample :
    create_scraper registryNoChina cfgChinaEx =
      Except.error "No scraper available for CHINA" ∧
    scrape_country_body registryNoChina exParseHtml exFetchNone TariffData.new cfgChinaEx 0 =
      Except.error "No scraper available for CHINA" ∧
    scrape_country registryNoChina exParseHtml exFetchNone TariffData.new cfgChinaEx 0 =
      (TariffData.new, false) ∧
    scrape_country defaultRegistry exParseHtml exFetchNone TariffData.new cfgChinaEx 0 =
      (TariffData.new, false) :=
  ⟨rfl, rfl, rfl, rfl⟩

/-- Claim C8 as amended: a target whose jurisdiction has no registered
extractor makes create_scraper raise the configuration error, but
scrape_country's blanket exception handler catches it, logs it, and
returns False with the dataset unchanged, like any per-target failure; the
error does not propagate to the Manager's caller. -/
theorem C8_config_error_contained (registry : Country → Option ScraperKind)
    (parseHtml : String → Node) (fetchResult : ScraperConfig → Option String)
    (st : TariffData) (cfg : ScraperConfig) (now : Nat)
    (h : registry cfg.country = none) :
    create_scraper registry cfg =
      Except.error ("No scraper available for " ++ cfg.country.name) ∧
    scrape_country_body registry parseHtml fetchResult st cfg now =
      Except.error ("No scraper available for " ++ cfg.country.name) ∧
    scrape_country registry parseHtml fetchResult st cfg now = (st, false) := by
  have hcs : create_scraper registry cfg =
      Except.error ("No scraper available for " ++ cfg.country.name) := by
    unfold create_scraper
    rw [h]
  refine ⟨hcs, ?_, ?_⟩
  · unfold scrape_country_body
    rw [hcs]
  · unfold scrape_country scrape_country_body
    rw [hcs]

/-- Witness for the amended C8 at the concrete China-less registry. -/
theorem C8_config_error_contained_witness :
    create_scraper registryNoChina cfgChinaEx =
      Except.error ("No scraper available for " ++ cfgChinaEx.country.name) ∧
    scrape_country_body registryNoChina exParseHtml exFetchNone TariffData.new cfgChinaEx 0 =
      Except.error ("No scraper available for " ++ cfgChinaEx.country.name) ∧
    scrape_country registryNoChina exParseHtml exFetchNone TariffData.new cfgChinaEx 0 =
      (TariffData.new, false) :=
  C8_config_error_contained registryNoChina exParseHtml exFetchNone TariffData.new cfgChinaEx 0
    (by decide)
